import Mathlib

/-!
Verification development for the dtn-go-client repository.

Python strings are modelled as `List Char`, bytes as `List Nat`.
All definitions are shallow embeddings of the functions in
`src/dtnclient/eid.py`, `src/dtnclient/messages.py` and
`src/dtnclient/client.py`; each definition carries a comment naming its
source.  Fallible Python code (code that may raise) is embedded as
`Except`-valued functions.
-/

instance {ε α : Type _} [DecidableEq ε] [DecidableEq α] : DecidableEq (Except ε α) :=
  fun x y =>
    match x, y with
    | .error a, .error b => decidable_of_iff (a = b) (by simp)
    | .error _, .ok _ => isFalse (by simp)
    | .ok _, .error _ => isFalse (by simp)
    | .ok a, .ok b => decidable_of_iff (a = b) (by simp)

/-- Convert a Lean string literal to the `List Char` representation used for
Python strings throughout this development. -/
def chars (s : String) : List Char := s.data

/-- Python `str.startswith`: `startsWith s pre` is true iff `pre` is a prefix
of `s`. -/
def startsWith : List Char → List Char → Bool
  | _, [] => true
  | [], _ :: _ => false
  | c :: cs, p :: ps => p == c && startsWith cs ps

/-- Python `s.split(sep, maxsplit=1)`: split at the first occurrence of `sep`.
Returns the part before the first `sep` and, when `sep` occurs, the remainder
after it.  `(s, none)` models the one-element list Python returns when `sep`
does not occur. -/
def splitOnce : List Char → Char → List Char × Option (List Char)
  | [], _ => ([], none)
  | c :: cs, sep =>
    if c = sep then ([], some cs)
    else
      let r := splitOnce cs sep
      (c :: r.1, r.2)

/-- Python `s.split(sep)` (no maxsplit): full split.  Always returns a
non-empty list; `"".split(sep) == [""]`. -/
def splitAll : List Char → Char → List (List Char)
  | [], _ => [[]]
  | c :: cs, sep =>
    if c = sep then [] :: splitAll cs sep
    else
      match splitAll cs sep with
      | h :: t => (c :: h) :: t
      | [] => [[c]]

/-- Characters allowed in a DTN node name by the character class of
`EID._NODE_RE`, i.e. `[A-Za-z0-9-._~!$&'()*+,;=]`. -/
def nodeCharOk (c : Char) : Bool :=
  c.isAlphanum || (chars "-._~!$&\x27()*+,;=").contains c

/-- `EID._NODE_RE.match(s)`: the regex `(^$)|(^[A-Za-z0-9-._~!$&'()*+,;=]+$)`
under Python `re.match` semantics.  `$` also matches just before a single
newline at the very end of the string, so a single trailing `'\n'` is
tolerated; apart from that the whole string must consist of class characters
(the empty string is accepted by the first alternative). -/
def nodeMatch (s : List Char) : Bool :=
  let t := if s.getLast? = some '\n' then s.dropLast else s
  t.all nodeCharOk

/-- Python `str.isascii`: every code point is below 128 (true for `""`). -/
def isAsciiStr (s : List Char) : Bool := s.all (fun c => c.toNat < 128)

/-- Whitespace stripped by Python `int(str)` around the number
(ASCII whitespace; exotic Unicode whitespace is out of scope here). -/
def pySpace (c : Char) : Bool :=
  c = ' ' || c = '\t' || c = '\n' || c = '\x0d' || c = '\x0b' || c = '\x0c'

/-- Strip leading and trailing `pySpace` characters. -/
def pyStrip (s : List Char) : List Char :=
  ((s.dropWhile pySpace).reverse.dropWhile pySpace).reverse

/-- Digit-run parser for Python `int(s, 10)`: a non-empty run of ASCII
digits in which single underscores may separate digits (`"1_2"` is 12;
leading/trailing/double underscores are rejected). -/
def parseDigits : List Char → Option Nat
  | [] => none
  | c :: cs =>
    if c.isDigit then parseDigitsGo (c.toNat - 48) cs else none
where
  parseDigitsGo (acc : Nat) : List Char → Option Nat
    | [] => some acc
    | '_' :: c :: cs =>
      if c.isDigit then parseDigitsGo (acc * 10 + (c.toNat - 48)) cs else none
    | '_' :: [] => none
    | c :: cs =>
      if c.isDigit then parseDigitsGo (acc * 10 + (c.toNat - 48)) cs else none

/-- Python `int(s, 10)`: optional surrounding whitespace, optional sign,
then a digit run (with underscore separators).  Returns `none` where Python
raises `ValueError`.  (Non-ASCII decimal digits are not modelled.) -/
def pyInt (s : List Char) : Option Int :=
  match pyStrip s with
  | '+' :: rest => (parseDigits rest).map Int.ofNat
  | '-' :: rest => (parseDigits rest).map (fun n => -(Int.ofNat n))
  | rest => (parseDigits rest).map Int.ofNat

/-- The decimal digit character for `d ∈ [0,9]`. -/
def digitChar : Nat → Char
  | 0 => '0' | 1 => '1' | 2 => '2' | 3 => '3' | 4 => '4'
  | 5 => '5' | 6 => '6' | 7 => '7' | 8 => '8' | _ => '9'

/-- Fuel-driven helper for `natRepr` (structural recursion so that the
kernel can evaluate it). -/
def natReprAux : Nat → Nat → List Char
  | 0, _ => []
  | fuel + 1, n =>
    if n < 10 then [digitChar n]
    else natReprAux fuel (n / 10) ++ [digitChar (n % 10)]

/-- Python `str(n)` for a natural number. -/
def natRepr (n : Nat) : List Char := natReprAux (n + 1) n

/-- Python `str(i)` for an integer. -/
def intRepr (i : Int) : List Char :=
  if i < 0 then '-' :: natRepr i.natAbs else natRepr i.toNat

/-- `EID._DTN_NONE`. -/
def dtnNone : List Char := chars "dtn:none"

/-- `EID._normalize` from `src/dtnclient/eid.py`: parse/validate/normalize an
endpoint-identifier string.  Returns the canonical text, or the `EIDError`
message.  `splitOnce` combines the source's `"/" in ssp` test with the
subsequent `ssp.split("/", 1)`: a `none` second component means `/` did not
occur and the service defaults to the empty string. -/
def EID.normalize (eid : List Char) : Except (List Char) (List Char) :=
  if eid = dtnNone then .ok eid
  else if startsWith eid (chars "dtn://") then
    let ssp := eid.drop 6
    if ssp = chars "none" then
      .error (chars "invalid DTN host: use \x27dtn:none\x27, not \x27dtn://none\x27")
    else if ssp = [] then .error (chars "invalid DTN EID: missing node")
    else
      let p := splitOnce ssp '/'
      let node := p.1
      let service := p.2.getD []
      if !nodeMatch node then
        .error (chars "invalid DTN node \x27" ++ node ++ chars "\x27")
      else if service = [] then .ok (chars "dtn://" ++ node ++ chars "/")
      else if !isAsciiStr service then
        .error (chars "invalid DTN service \x27" ++ service ++ chars "\x27")
      else .ok (chars "dtn://" ++ node ++ chars "/" ++ service)
  else if startsWith eid (chars "ipn:") then
    let rest := eid.drop 4
    if startsWith rest (chars "//") then
      .error (chars "invalid IPN EID: must be \x27ipn:N.S\x27, not \x27ipn://N.S\x27")
    else
      match splitAll rest '.' with
      | [a, b] =>
        match pyInt a, pyInt b with
        | some nodeI, some svcI =>
          if nodeI < 1 then .error (chars "IPN node must be >= 1")
          else if svcI < 0 then .error (chars "IPN service must be >= 0")
          else .ok (chars "ipn:" ++ intRepr nodeI ++ chars "." ++ intRepr svcI)
        | _, _ => .error (chars "invalid IPN numbers")
      | _ => .error (chars "invalid IPN EID: need exactly one dot (node.service)")
  else .error (chars "unknown scheme (expected \x27dtn:\x27 or \x27ipn:\x27)")

/-- `EID.dtn(node, service)`: factory building `dtn://node/service` (or
`dtn://node/` when the service is `None` or `""`), then running the
constructor's `_normalize`. -/
def eidDtn (node : List Char) (service : Option (List Char)) :
    Except (List Char) (List Char) :=
  let service := if service = some [] then none else service
  if !nodeMatch node then
    .error (chars "invalid DTN node \x27" ++ node ++ chars "\x27")
  else
    match service with
    | none => EID.normalize (chars "dtn://" ++ node ++ chars "/")
    | some svc =>
      if !isAsciiStr svc then
        .error (chars "invalid DTN service \x27" ++ svc ++ chars "\x27")
      else EID.normalize (chars "dtn://" ++ node ++ chars "/" ++ svc)

/-- `EID.ipn(node_number, service_number)`. -/
def eidIpn (nodeNumber serviceNumber : Int) : Except (List Char) (List Char) :=
  if nodeNumber < 1 then .error (chars "IPN node must be >= 1")
  else if serviceNumber < 0 then .error (chars "IPN service must be >= 0")
  else EID.normalize (chars "ipn:" ++ intRepr nodeNumber ++ chars "." ++ intRepr serviceNumber)

/-- `EID.__bool__`: an EID is truthy iff it differs from `dtn:none`. -/
def eidBool (s : List Char) : Bool := s != dtnNone

/-- `EID.node`: `None` for `dtn:none`; otherwise the text before the first
`/` (dtn) or the first `.` (ipn) of the scheme-specific part.  The outer
`Option` is `none` where Python would raise (indexing a missing split part);
`.node` indexes part 0 which always exists, so it never raises. -/
def eidNode (self : List Char) : Option (Option (List Char)) :=
  if self = dtnNone then some none
  else if startsWith self (chars "dtn://") then
    some (some (splitOnce (self.drop 6) '/').1)
  else some (some (splitOnce (self.drop 4) '.').1)

/-- `EID.service`: `None` for `dtn:none`; otherwise split part 1, which in
Python raises `IndexError` (modelled by the outer `none`) when the separator
does not occur. -/
def eidService (self : List Char) : Option (Option (List Char)) :=
  if self = dtnNone then some none
  else if startsWith self (chars "dtn://") then
    match (splitOnce (self.drop 6) '/').2 with
    | some s => some (some s)
    | none => none
  else
    match (splitOnce (self.drop 4) '.').2 with
    | some s => some (some s)
    | none => none

/-! ## Message model (`src/dtnclient/messages.py`)

Messages travel as msgpack maps.  `ormsgpack.packb`/`unpackb` are an external
library (not part of this repository); for this development the wire is
modelled as the Python object tree itself (`PyVal`), relying on the library
contract that `unpackb (packb v) = v` for this value domain with byte-string
and integer fidelity.  `serialize`/`deserialize` below are therefore stated
at the tree level. -/

/-- The msgpack-representable Python values exchanged on the wire: ints,
strings (and `EID`, a `str` subclass, which `packb` serializes as its text),
bools, byte strings, lists and string-keyed dicts (insertion-ordered). -/
inductive PyVal : Type where
  | int (i : Int)
  | str (s : List Char)
  | bool (b : Bool)
  | bytes (b : List Nat)
  | list (l : List PyVal)
  | dict (d : List (List Char × PyVal))

/-- A Python dict with string keys: an insertion-ordered association list
(keys are unique in every dict this development builds). -/
abbrev PyDict : Type := List (List Char × PyVal)

/-- `d[k]` lookup; `none` when the key is absent. -/
def dictGet (d : PyDict) (k : List Char) : Option PyVal :=
  match d with
  | [] => none
  | (k', v) :: rest => if k' = k then some v else dictGet rest k

/-- `d[k] = v`: replace the value in place if `k` is present (keeping its
position), otherwise append the binding. -/
def dictSet (d : PyDict) (k : List Char) (v : PyVal) : PyDict :=
  match d with
  | [] => [(k, v)]
  | (k', v') :: rest => if k' = k then (k, v) :: rest else (k', v') :: dictSet rest k v

/-- The Python exceptions the message layer can raise. -/
inductive PyErr : Type where
  /-- `InvalidMessageError` -/
  | invalidMessage (msg : List Char)
  /-- `KeyError` from a `data[k]` subscript on a missing key -/
  | keyError (k : List Char)
  /-- `TypeError` from keyword-argument binding in `cls(**data)` -/
  | typeError (msg : List Char)
  /-- `EIDError` escaping from an `EID(...)` conversion inside `from_dict` -/
  | eidError (msg : List Char)
deriving DecidableEq

/-- `data[k]` subscript: `KeyError` when missing. -/
def subscript (d : PyDict) (k : String) : Except PyErr PyVal :=
  match dictGet d (chars k) with
  | some v => .ok v
  | none => .error (.keyError (chars k))

/-- A required keyword argument of `cls(**data)`: missing ⇒ `TypeError`. -/
def kwarg (d : PyDict) (k : String) : Except PyErr PyVal :=
  match dictGet d (chars k) with
  | some v => .ok v
  | none => .error (.typeError (chars "missing required argument \x27" ++ chars k ++ chars "\x27"))

/-- `cls(**data)` rejects unexpected keyword arguments with `TypeError`. -/
def kwargsOk (d : PyDict) (allowed : List (List Char)) : Except PyErr Unit :=
  if d.all (fun kv => allowed.contains kv.1) then .ok ()
  else .error (.typeError (chars "unexpected keyword argument"))

/-- Extract an `Int`-shaped value.  Python dataclasses do not check field
types at runtime; the shape assertions in these extractors are only exercised
with values of the stated shapes in everything proved below (all wire dicts
in the claims are produced by `dictify` or written out concretely). -/
def asInt : PyVal → Except PyErr Int
  | .int i => .ok i
  | _ => .error (.typeError (chars "expected int"))

/-- Extract a `str`-shaped value (see `asInt` on shape assertions). -/
def asStr : PyVal → Except PyErr (List Char)
  | .str s => .ok s
  | _ => .error (.typeError (chars "expected str"))

/-- Extract a `bool`-shaped value. -/
def asBool : PyVal → Except PyErr Bool
  | .bool b => .ok b
  | _ => .error (.typeError (chars "expected bool"))

/-- Extract a `bytes`-shaped value. -/
def asBytes : PyVal → Except PyErr (List Nat)
  | .bytes b => .ok b
  | _ => .error (.typeError (chars "expected bytes"))

/-- Extract a `list`-shaped value. -/
def asList : PyVal → Except PyErr (List PyVal)
  | .list l => .ok l
  | _ => .error (.typeError (chars "expected list"))

/-- Extract a `dict`-shaped value. -/
def asDict : PyVal → Except PyErr PyDict
  | .dict d => .ok d
  | _ => .error (.typeError (chars "expected dict"))

/-- An `EID(raw)` conversion inside `from_dict`: a failing `_normalize`
escapes as `EIDError` (it is *not* converted to `InvalidMessageError`). -/
def liftEID (r : Except (List Char) (List Char)) : Except PyErr (List Char) :=
  match r with
  | .ok s => .ok s
  | .error m => .error (.eidError m)

/-- `BundleContent` (`messages.py`): `BundleID: str`, `SourceID: EID`,
`DestinationID: EID`, `Payload: bytes = b""`.  The EID fields hold canonical
EID text (`EID` is a `str` subclass). -/
structure BundleContent : Type where
  BundleID : List Char
  SourceID : List Char
  DestinationID : List Char
  Payload : List Nat
deriving DecidableEq

/-- `BundleContent.dictify`: `{key: value for key, value in self.__dict__.items() if value}`
— fields with falsy values are omitted.  `BundleID` is a plain `str` (falsy
iff empty), `SourceID`/`DestinationID` are `EID`s (falsy iff `dtn:none`, per
`EID.__bool__`), `Payload` is `bytes` (falsy iff empty). -/
def BundleContent.dictify (bc : BundleContent) : PyDict :=
  (if bc.BundleID ≠ [] then [(chars "BundleID", PyVal.str bc.BundleID)] else []) ++
  (if eidBool bc.SourceID then [(chars "SourceID", PyVal.str bc.SourceID)] else []) ++
  (if eidBool bc.DestinationID then [(chars "DestinationID", PyVal.str bc.DestinationID)] else []) ++
  (if bc.Payload ≠ [] then [(chars "Payload", PyVal.bytes bc.Payload)] else [])

/-- `BundleContent.from_dict`: wraps `SourceID` and `DestinationID` in
`EID(...)` (a `data[k]` subscript each, so a missing key is a `KeyError`),
then calls `cls(**data)`; `BundleID` is a required keyword, `Payload`
defaults to `b""`.  `BundleContent` has no `__post_init__`. -/
def BundleContent.fromDict (d : PyDict) : Except PyErr BundleContent := do
  let srcRaw ← asStr (← subscript d "SourceID")
  let src ← liftEID (EID.normalize srcRaw)
  let d := dictSet d (chars "SourceID") (.str src)
  let dstRaw ← asStr (← subscript d "DestinationID")
  let dst ← liftEID (EID.normalize dstRaw)
  let d := dictSet d (chars "DestinationID") (.str dst)
  let bid ← asStr (← kwarg d "BundleID")
  let src2 ← asStr (← kwarg d "SourceID")
  let dst2 ← asStr (← kwarg d "DestinationID")
  let payload ← match dictGet d (chars "Payload") with
    | some v => asBytes v
    | none => pure []
  let _ ← kwargsOk d [chars "BundleID", chars "SourceID", chars "DestinationID", chars "Payload"]
  pure (BundleContent.mk bid src2 dst2 payload)

/-- The closed set of message variants of `messages.py`, one constructor per
concrete dataclass.  Field order and names follow the dataclasses (base
`Message.Type` / `Response.Error` fields first).  `Type` is an `Int`: in
Python the field may hold either a `MessageType` member or the raw integer
decoded from the wire — the two compare equal (`IntEnum`), so dataclass value
equality is equality of these `Int`s.  EID-typed fields hold the EID's
canonical text (`EID` is a `str` subclass with value equality). -/
inductive Msg : Type where
  | response (ty : Int) (Error : List Char)
  | registerUnregister (ty : Int) (EndpointID : List Char)
  | bundleCreate (ty : Int) (Args : PyDict)
  | bundleCreateResponse (ty : Int) (Error : List Char) (BundleID : List Char)
  | listBundles (ty : Int) (Mailbox : List Char) (New : Bool)
  | listResponse (ty : Int) (Error : List Char) (Bundles : List (List Char))
  | fetchBundle (ty : Int) (Mailbox : List Char) (BundleID : List Char) (Remove : Bool)
  | fetchBundleResponse (ty : Int) (Error : List Char) (Content : BundleContent)
  | fetchAllBundles (ty : Int) (Mailbox : List Char) (New : Bool) (Remove : Bool)
  | fetchAllBundlesResponse (ty : Int) (Error : List Char) (Bundles : List BundleContent)

/-- The `dictify` methods: every variant returns its `__dict__` (base fields
first — the `parent_dict | own_dict` merges in the source are no-ops on the
instance's own `__dict__` except in `FetchBundleResponse` and
`FetchAllBundlesResponse`, which replace the nested `BundleContent` values by
their own `dictify` mappings, keeping the key position). -/
def dictify : Msg → PyDict
  | .response t e => [(chars "Type", .int t), (chars "Error", .str e)]
  | .registerUnregister t eid => [(chars "Type", .int t), (chars "EndpointID", .str eid)]
  | .bundleCreate t args => [(chars "Type", .int t), (chars "Args", .dict args)]
  | .bundleCreateResponse t e bid =>
    [(chars "Type", .int t), (chars "Error", .str e), (chars "BundleID", .str bid)]
  | .listBundles t mb n =>
    [(chars "Type", .int t), (chars "Mailbox", .str mb), (chars "New", .bool n)]
  | .listResponse t e bs =>
    [(chars "Type", .int t), (chars "Error", .str e),
     (chars "Bundles", .list (bs.map PyVal.str))]
  | .fetchBundle t mb bid r =>
    [(chars "Type", .int t), (chars "Mailbox", .str mb),
     (chars "BundleID", .str bid), (chars "Remove", .bool r)]
  | .fetchBundleResponse t e bc =>
    [(chars "Type", .int t), (chars "Error", .str e),
     (chars "BundleContent", .dict bc.dictify)]
  | .fetchAllBundles t mb n r =>
    [(chars "Type", .int t), (chars "Mailbox", .str mb),
     (chars "New", .bool n), (chars "Remove", .bool r)]
  | .fetchAllBundlesResponse t e bcs =>
    [(chars "Type", .int t), (chars "Error", .str e),
     (chars "Bundles", .list (bcs.map (fun bc => PyVal.dict bc.dictify)))]

/-- The tag-mismatch message of the `__post_init__` methods:
`f"Message needs MessageType {need}, but has {t}"` (for `IntEnum` members an
f-string prints the integer, Python ≥ 3.11). -/
def needTypeMsg (need : List Char) (t : Int) : List Char :=
  chars "Message needs MessageType " ++ need ++ chars ", but has " ++ intRepr t

/-- The `__post_init__` validators, for instances whose declared `EID` fields
hold actual `EID` values (the construction path used by `client.py` and by
the decode paths that convert with `EID(...)` first): truthiness of those
fields is `EID.__bool__`.  `RegisterUnregister.from_dict` constructs with a
raw `str` instead and is embedded separately in `fromDictRegisterUnregister`. -/
def postInit : Msg → Except PyErr Unit
  | .response t _ =>
    if t ≠ 1 then .error (.invalidMessage (needTypeMsg (chars "1") t)) else .ok ()
  | .registerUnregister t eid =>
    if t ≠ 2 ∧ t ≠ 3 then .error (.invalidMessage (needTypeMsg (chars "2 or 3") t))
    else if !eidBool eid then
      .error (.invalidMessage (chars "EndpointID must not be none/empty"))
    else .ok ()
  | .bundleCreate t args =>
    if t ≠ 4 then .error (.invalidMessage (needTypeMsg (chars "4") t))
    else if args.isEmpty then .error (.invalidMessage (chars "Args must not be empty"))
    else .ok ()
  | .bundleCreateResponse t _ bid =>
    if t ≠ 5 then .error (.invalidMessage (needTypeMsg (chars "5") t))
    else if bid = [] then .error (.invalidMessage (chars "BundleID must not be empty"))
    else .ok ()
  | .listBundles t mb _ =>
    if t ≠ 6 then .error (.invalidMessage (needTypeMsg (chars "6") t))
    else if !eidBool mb then
      .error (.invalidMessage (chars "Mailbox must not be none/empty"))
    else .ok ()
  | .listResponse t _ _ =>
    if t ≠ 7 then .error (.invalidMessage (needTypeMsg (chars "7") t)) else .ok ()
  | .fetchBundle t mb bid _ =>
    if t ≠ 8 then .error (.invalidMessage (needTypeMsg (chars "8") t))
    else if !eidBool mb then
      .error (.invalidMessage (chars "Mailbox must not be none/empty"))
    else if bid = [] then .error (.invalidMessage (chars "BundleID must not be empty"))
    else .ok ()
  | .fetchBundleResponse t _ _ =>
    if t ≠ 9 then .error (.invalidMessage (needTypeMsg (chars "9") t)) else .ok ()
  | .fetchAllBundles t mb _ _ =>
    if t ≠ 10 then .error (.invalidMessage (needTypeMsg (chars "10") t))
    else if !eidBool mb then
      .error (.invalidMessage (chars "Mailbox must not be none/empty"))
    else .ok ()
  | .fetchAllBundlesResponse t _ _ =>
    if t ≠ 11 then .error (.invalidMessage (needTypeMsg (chars "11") t)) else .ok ()

/-- `Response.from_dict`: `cls(**data)` (keyword binding, then
`__post_init__`). -/
def fromDictResponse (d : PyDict) : Except PyErr Msg := do
  let t ← asInt (← kwarg d "Type")
  let e ← asStr (← kwarg d "Error")
  let _ ← kwargsOk d [chars "Type", chars "Error"]
  let m := Msg.response t e
  let _ ← postInit m
  pure m

/-- `RegisterUnregister.from_dict`: plain `cls(**data)` — unlike the other
EID-carrying variants it performs **no** `EID(...)` conversion, so
`EndpointID` stays the raw wire string and the `__post_init__` truthiness
test `not self.EndpointID` is plain-`str` truthiness: it only rejects the
empty string (the raw text `"dtn:none"` passes). -/
def fromDictRegisterUnregister (d : PyDict) : Except PyErr Msg := do
  let t ← asInt (← kwarg d "Type")
  let eid ← asStr (← kwarg d "EndpointID")
  let _ ← kwargsOk d [chars "Type", chars "EndpointID"]
  if t ≠ 2 ∧ t ≠ 3 then throw (.invalidMessage (needTypeMsg (chars "2 or 3") t))
  else if eid = [] then
    throw (.invalidMessage (chars "EndpointID must not be none/empty"))
  else pure (Msg.registerUnregister t eid)

/-- `BundleCreate.from_dict`: plain `cls(**data)`. -/
def fromDictBundleCreate (d : PyDict) : Except PyErr Msg := do
  let t ← asInt (← kwarg d "Type")
  let args ← asDict (← kwarg d "Args")
  let _ ← kwargsOk d [chars "Type", chars "Args"]
  let m := Msg.bundleCreate t args
  let _ ← postInit m
  pure m

/-- `BundleCreateResponse.from_dict`: plain `cls(**data)`. -/
def fromDictBundleCreateResponse (d : PyDict) : Except PyErr Msg := do
  let t ← asInt (← kwarg d "Type")
  let e ← asStr (← kwarg d "Error")
  let bid ← asStr (← kwarg d "BundleID")
  let _ ← kwargsOk d [chars "Type", chars "Error", chars "BundleID"]
  let m := Msg.bundleCreateResponse t e bid
  let _ ← postInit m
  pure m

/-- `ListBundles.from_dict`: `data["Mailbox"] = EID(data["Mailbox"])`, then
`cls(**data)` — the mailbox reaches `__post_init__` as a validated `EID`. -/
def fromDictListBundles (d : PyDict) : Except PyErr Msg := do
  let mbRaw ← asStr (← subscript d "Mailbox")
  let mb ← liftEID (EID.normalize mbRaw)
  let d := dictSet d (chars "Mailbox") (.str mb)
  let t ← asInt (← kwarg d "Type")
  let mb2 ← asStr (← kwarg d "Mailbox")
  let n ← asBool (← kwarg d "New")
  let _ ← kwargsOk d [chars "Type", chars "Mailbox", chars "New"]
  let m := Msg.listBundles t mb2 n
  let _ ← postInit m
  pure m

/-- `ListResponse.from_dict`: plain `cls(**data)`. -/
def fromDictListResponse (d : PyDict) : Except PyErr Msg := do
  let t ← asInt (← kwarg d "Type")
  let e ← asStr (← kwarg d "Error")
  let bsVal ← asList (← kwarg d "Bundles")
  let bs ← bsVal.mapM asStr
  let _ ← kwargsOk d [chars "Type", chars "Error", chars "Bundles"]
  let m := Msg.listResponse t e bs
  let _ ← postInit m
  pure m

/-- `FetchBundle.from_dict`: `EID(...)` conversion of `Mailbox`, then
`cls(**data)`. -/
def fromDictFetchBundle (d : PyDict) : Except PyErr Msg := do
  let mbRaw ← asStr (← subscript d "Mailbox")
  let mb ← liftEID (EID.normalize mbRaw)
  let d := dictSet d (chars "Mailbox") (.str mb)
  let t ← asInt (← kwarg d "Type")
  let mb2 ← asStr (← kwarg d "Mailbox")
  let bid ← asStr (← kwarg d "BundleID")
  let r ← asBool (← kwarg d "Remove")
  let _ ← kwargsOk d [chars "Type", chars "Mailbox", chars "BundleID", chars "Remove"]
  let m := Msg.fetchBundle t mb2 bid r
  let _ ← postInit m
  pure m

/-- `FetchBundleResponse.from_dict`:
`data["BundleContent"] = BundleContent.from_dict(data["BundleContent"])`,
then `cls(**data)`. -/
def fromDictFetchBundleResponse (d : PyDict) : Except PyErr Msg := do
  let bcVal ← asDict (← subscript d "BundleContent")
  let bc ← BundleContent.fromDict bcVal
  let t ← asInt (← kwarg d "Type")
  let e ← asStr (← kwarg d "Error")
  let _ ← kwargsOk d [chars "Type", chars "Error", chars "BundleContent"]
  let m := Msg.fetchBundleResponse t e bc
  let _ ← postInit m
  pure m

/-- `FetchAllBundles.from_dict`: `EID(...)` conversion of `Mailbox`, then
`cls(**data)`. -/
def fromDictFetchAllBundles (d : PyDict) : Except PyErr Msg := do
  let mbRaw ← asStr (← subscript d "Mailbox")
  let mb ← liftEID (EID.normalize mbRaw)
  let d := dictSet d (chars "Mailbox") (.str mb)
  let t ← asInt (← kwarg d "Type")
  let mb2 ← asStr (← kwarg d "Mailbox")
  let n ← asBool (← kwarg d "New")
  let r ← asBool (← kwarg d "Remove")
  let _ ← kwargsOk d [chars "Type", chars "Mailbox", chars "New", chars "Remove"]
  let m := Msg.fetchAllBundles t mb2 n r
  let _ ← postInit m
  pure m

/-- `FetchAllBundlesResponse.from_dict`: converts every element of
`data["Bundles"]` with `BundleContent.from_dict`, then `cls(**data)`. -/
def fromDictFetchAllBundlesResponse (d : PyDict) : Except PyErr Msg := do
  let bsVal ← asList (← kwarg d "Bundles")
  let bcs ← bsVal.mapM (fun v => do BundleContent.fromDict (← asDict v))
  let t ← asInt (← kwarg d "Type")
  let e ← asStr (← kwarg d "Error")
  let _ ← kwargsOk d [chars "Type", chars "Error", chars "Bundles"]
  let m := Msg.fetchAllBundlesResponse t e bcs
  let _ ← postInit m
  pure m

/-- `serialize` (`messages.py`): `packb(message.dictify())`.  With the
external msgpack encoding modelled as the identity on the object tree
(see the section comment), this is `dictify`. -/
def serialize (message : Msg) : PyDict := dictify message

/-- `deserialize` (`messages.py`): look up `"Type"`, resolve it as a
`MessageType` and dispatch through `MESSAGE_CONSTRUCTORS`.  A missing key,
an unknown value and a failing variant reconstruction are the three distinct
`InvalidMessageError` conditions of the source.  A `bool` tag is an `int` in
Python (`MessageType(True)` is `Response`); any other value class makes
`MessageType(...)` raise `ValueError`, reported as the unknown-ID error. -/
def deserialize (d : PyDict) : Except PyErr Msg :=
  match dictGet d (chars "Type") with
  | none => .error (.invalidMessage (chars "Message missing \x27Type\x27 field"))
  | some v =>
    match (match v with
           | .int t => some t
           | .bool b => some (if b then (1 : Int) else 0)
           | _ => none) with
    | none => .error (.invalidMessage (chars "Unknown MessageType ID"))
    | some t =>
      if t = 1 then fromDictResponse d
      else if t = 2 ∨ t = 3 then fromDictRegisterUnregister d
      else if t = 4 then fromDictBundleCreate d
      else if t = 5 then fromDictBundleCreateResponse d
      else if t = 6 then fromDictListBundles d
      else if t = 7 then fromDictListResponse d
      else if t = 8 then fromDictFetchBundle d
      else if t = 9 then fromDictFetchBundleResponse d
      else if t = 10 then fromDictFetchAllBundles d
      else if t = 11 then fromDictFetchAllBundlesResponse d
      else .error (.invalidMessage (chars "Unknown MessageType ID"))

/-! ## Framed transport calls (`src/dtnclient/client.py`)

The socket is external; the reply side of `_send_message` is embedded as a
function of the byte stream the daemon makes available (`recvReply`), and the
post-decode logic of `_send_message` plus each public call is embedded as a
function of the decoded reply message. -/

/-- The exceptions of `client.py`. -/
inductive ClientErr : Type where
  /-- `DataError`: data received from dtnd is inconsistent -/
  | dataError (msg : List Char)
  /-- `DTNDError`: dtnd's response indicated an error -/
  | dtndError (msg : List Char)
deriving DecidableEq

/-- `int.from_bytes(bytes, byteorder="big", signed=False)`. -/
def fromBytesBE (bs : List Nat) : Nat := bs.foldl (fun acc b => acc * 256 + b) 0

/-- The reply-reading part of `_send_message`: `s.recv(8)` (at most 8 bytes),
big-endian length, the `reply_length <= 0` check, `s.recv(reply_length)`
(at most `reply_length` bytes) and the announced-vs-actual length check.
Returns the reply body bytes handed to `deserialize`. -/
def recvReply (stream : List Nat) : Except ClientErr (List Nat) :=
  let replyLength := fromBytesBE (stream.take 8)
  if replyLength ≤ 0 then
    .error (.dataError (chars "Received nonsensical data-length: " ++ natRepr replyLength))
  else
    let data := (stream.drop 8).take replyLength
    if data.length ≠ replyLength then
      .error (.dataError
        (chars "Announced data length and actual length do not match - announced: "
          ++ natRepr replyLength ++ chars ", actual: " ++ natRepr data.length))
    else .ok data

/-- `isinstance(reply, Response)`: the `Response` dataclass and its four
subclasses. -/
def isResponseFamily : Msg → Bool
  | .response _ _ => true
  | .bundleCreateResponse _ _ _ => true
  | .listResponse _ _ _ => true
  | .fetchBundleResponse _ _ _ => true
  | .fetchAllBundlesResponse _ _ _ => true
  | _ => false

/-- `reply.Error` for the `Response` family (`none` for the request variants,
which have no `Error` attribute). -/
def errField : Msg → Option (List Char)
  | .response _ e => some e
  | .bundleCreateResponse _ e _ => some e
  | .listResponse _ e _ => some e
  | .fetchBundleResponse _ e _ => some e
  | .fetchAllBundlesResponse _ e _ => some e
  | _ => none

/-- The post-decode tail of `_send_message`: a decoded reply that is not a
`Response` instance raises `DataError`. -/
def sendMessageCheck (reply : Msg) : Except ClientErr Msg :=
  if isResponseFamily reply then .ok reply
  else .error (.dataError (chars "Received response is not a response message"))

/-- `register_unregister`, from the decoded reply on: `DTNDError` on a
non-empty `Error`, then success — the source checks no concrete reply
variant. -/
def registerUnregisterCall (reply : Msg) : Except ClientErr Unit := do
  let r ← sendMessageCheck reply
  let e := (errField r).getD []
  if e ≠ [] then throw (.dtndError e) else pure ()

/-- `create_bundle`, from the decoded reply on: `DTNDError` on a non-empty
`Error`, `DataError` unless the reply is a `BundleCreateResponse`, else the
`BundleID`. -/
def createBundleCall (reply : Msg) : Except ClientErr (List Char) := do
  let r ← sendMessageCheck reply
  let e := (errField r).getD []
  if e ≠ [] then throw (.dtndError e)
  else
    match r with
    | .bundleCreateResponse _ _ bid => pure bid
    | _ => throw (.dataError (chars "response should have been BundleCreateResponse"))

/-- `list_bundles`, from the decoded reply on. -/
def listBundlesCall (reply : Msg) : Except ClientErr (List (List Char)) := do
  let r ← sendMessageCheck reply
  let e := (errField r).getD []
  if e ≠ [] then throw (.dtndError e)
  else
    match r with
    | .listResponse _ _ bs => pure bs
    | _ => throw (.dataError (chars "response should have been ListResponse"))

/-- `fetch_bundle`, from the decoded reply on. -/
def fetchBundleCall (reply : Msg) : Except ClientErr BundleContent := do
  let r ← sendMessageCheck reply
  let e := (errField r).getD []
  if e ≠ [] then throw (.dtndError e)
  else
    match r with
    | .fetchBundleResponse _ _ bc => pure bc
    | _ => throw (.dataError (chars "response should have been FetchBundleResponse"))

/-- `fetch_all_bundles`, from the decoded reply on. -/
def fetchAllBundlesCall (reply : Msg) : Except ClientErr (List BundleContent) := do
  let r ← sendMessageCheck reply
  let e := (errField r).getD []
  if e ≠ [] then throw (.dtndError e)
  else
    match r with
    | .fetchAllBundlesResponse _ _ bcs => pure bcs
    | _ => throw (.dataError (chars "response should have been FetchAllBundlesResponse"))

/-- The construction invariants of a `BundleContent` whose mapping decodes
back to it: non-empty `BundleID`, and `SourceID`/`DestinationID` holding
canonical non-none EID text (as every `EID` value does). -/
def wellFormedBC (bc : BundleContent) : Prop :=
  bc.BundleID ≠ [] ∧
  EID.normalize bc.SourceID = .ok bc.SourceID ∧ bc.SourceID ≠ dtnNone ∧
  EID.normalize bc.DestinationID = .ok bc.DestinationID ∧ bc.DestinationID ≠ dtnNone


/-- Constructibility of a message with properly typed field values: the tag
matches the variant, required fields are non-empty, and EID fields hold
canonical non-none EID text. -/
def wellFormed : Msg → Prop
  | .response t _ => t = 1
  | .registerUnregister t eid => (t = 2 ∨ t = 3) ∧ eid ≠ [] ∧ eid ≠ dtnNone
  | .bundleCreate t args => t = 4 ∧ args ≠ []
  | .bundleCreateResponse t _ bid => t = 5 ∧ bid ≠ []
  | .listBundles t mb _ => t = 6 ∧ EID.normalize mb = .ok mb ∧ mb ≠ dtnNone
  | .listResponse t _ _ => t = 7
  | .fetchBundle t mb bid _ =>
    t = 8 ∧ EID.normalize mb = .ok mb ∧ mb ≠ dtnNone ∧ bid ≠ []
  | .fetchBundleResponse t _ bc => t = 9 ∧ wellFormedBC bc
  | .fetchAllBundles t mb _ _ => t = 10 ∧ EID.normalize mb = .ok mb ∧ mb ≠ dtnNone
  | .fetchAllBundlesResponse t _ bcs => t = 11 ∧ ∀ bc ∈ bcs, wellFormedBC bc


/-- Concrete-class test `isinstance(response, BundleCreateResponse)`. -/
def isBundleCreateResponse : Msg → Bool
  | .bundleCreateResponse _ _ _ => true
  | _ => false


/-- Concrete-class test `isinstance(response, ListResponse)`. -/
def isListResponse : Msg → Bool
  | .listResponse _ _ _ => true
  | _ => false


/-- Concrete-class test `isinstance(response, FetchBundleResponse)`. -/
def isFetchBundleResponse : Msg → Bool
  | .fetchBundleResponse _ _ _ => true
  | _ => false


/-- Concrete-class test `isinstance(response, FetchAllBundlesResponse)`. -/
def isFetchAllBundlesResponse : Msg → Bool
  | .fetchAllBundlesResponse _ _ _ => true
  | _ => false


/-! ## Helper lemmas -/

lemma splitOnce_fst_append {a b : List Char} {sep : Char} (hs : sep ∉ a) :
    (splitOnce (a ++ sep :: b) sep).1 = a := by
  induction a with
  | nil => simp [splitOnce]
  | cons c cs ih =>
    have hc : c ≠ sep := fun h => hs (h ▸ List.mem_cons_self c cs)
    have hcs : sep ∉ cs := fun h => hs (List.mem_cons_of_mem _ h)
    simp [splitOnce, hc, ih hcs]

lemma splitOnce_snd_append {a b : List Char} {sep : Char} (hs : sep ∉ a) :
    (splitOnce (a ++ sep :: b) sep).2 = some b := by
  induction a with
  | nil => simp [splitOnce]
  | cons c cs ih =>
    have hc : c ≠ sep := fun h => hs (h ▸ List.mem_cons_self c cs)
    have hcs : sep ∉ cs := fun h => hs (List.mem_cons_of_mem _ h)
    simp [splitOnce, hc, ih hcs]

lemma splitOnce_fst_not_mem (s : List Char) (sep : Char) :
    sep ∉ (splitOnce s sep).1 := by
  induction s with
  | nil => simp [splitOnce]
  | cons c cs ih =>
    by_cases hc : c = sep
    · simp [splitOnce, hc]
    · simp only [splitOnce, if_neg hc]
      intro hmem
      rcases List.mem_cons.1 hmem with h | h
      · exact hc h.symm
      · exact ih h

lemma not_slash_of_all {node : List Char} (h : node.all nodeCharOk = true) : '/' ∉ node := by
  intro hmem
  have := List.all_eq_true.1 h _ hmem
  simp [nodeCharOk, chars] at this

lemma nodeMatch_of_all {node : List Char} (h : node.all nodeCharOk = true) :
    nodeMatch node = true := by
  unfold nodeMatch
  have hlast : node.getLast? ≠ some '\n' := by
    intro hl
    have hmem : '\n' ∈ node.getLast? := by rw [hl]; exact rfl
    obtain ⟨hne, heq⟩ := List.mem_getLast?_eq_getLast hmem
    have : '\n' ∈ node := heq ▸ List.getLast_mem hne
    have := List.all_eq_true.1 h _ this
    simp [nodeCharOk, chars] at this
  simp [hlast, h]

lemma dtn_prefix_ne_dtnNone (rest : List Char) : chars "dtn://" ++ rest ≠ dtnNone := by
  intro h
  have h4 : (some '/' : Option Char) = some 'n' := congrArg (fun l => l[4]?) h
  simp at h4

lemma ipn_prefix_ne_dtnNone (rest : List Char) : chars "ipn:" ++ rest ≠ dtnNone := by
  intro h
  have h0 : (some 'i' : Option Char) = some 'd' := congrArg (fun l => l[0]?) h
  simp at h0

lemma dtn_prefix_is_dtn (rest : List Char) :
    startsWith (chars "dtn://" ++ rest) (chars "dtn://") = true := by
  induction rest with
  | nil => rfl
  | cons c cs ih => rfl

lemma ipn_prefix_not_dtn (rest : List Char) :
    startsWith (chars "ipn:" ++ rest) (chars "dtn://") = false := rfl

lemma ipn_prefix_is_ipn (rest : List Char) :
    startsWith (chars "ipn:" ++ rest) (chars "ipn:") = true := by
  induction rest with
  | nil => rfl
  | cons c cs ih => rfl

lemma drop6_dtn (rest : List Char) : (chars "dtn://" ++ rest).drop 6 = rest := rfl

lemma drop4_ipn (rest : List Char) : (chars "ipn:" ++ rest).drop 4 = rest := rfl

lemma slash_not_in_none : ¬ ('/' ∈ chars "none") := by decide

/-- Evaluation of `EID._normalize` on a `dtn://node/...` input whose node
part contains no slash and differs from the bare `none` remainder. -/
lemma normalize_dtn_unfold (node svc : List Char) (hs : '/' ∉ node)
    (hnone : node ++ '/' :: svc ≠ chars "none") :
    EID.normalize (chars "dtn://" ++ node ++ '/' :: svc) =
      (if !nodeMatch node then
        Except.error (chars "invalid DTN node \x27" ++ node ++ chars "\x27")
      else if svc = [] then Except.ok (chars "dtn://" ++ node ++ chars "/")
      else if !isAsciiStr svc then
        Except.error (chars "invalid DTN service \x27" ++ svc ++ chars "\x27")
      else Except.ok (chars "dtn://" ++ node ++ chars "/" ++ svc)) := by
  have hassoc : chars "dtn://" ++ node ++ '/' :: svc = chars "dtn://" ++ (node ++ '/' :: svc) := by
    simp [List.append_assoc]
  rw [hassoc]
  simp only [EID.normalize, dtn_prefix_ne_dtnNone, dtn_prefix_is_dtn, drop6_dtn, if_true,
    if_false, hnone, List.append_eq_nil, reduceCtorEq, and_false,
    splitOnce_fst_append hs, splitOnce_snd_append hs, Option.getD_some]

/-- A canonical `dtn://node/service` text is a fixed point of `_normalize`. -/
lemma normalize_dtn_canonical (node svc : List Char)
    (hnode : node.all nodeCharOk = true) (hsvc : isAsciiStr svc = true) :
    EID.normalize (chars "dtn://" ++ node ++ '/' :: svc)
      = Except.ok (chars "dtn://" ++ node ++ '/' :: svc) := by
  have hs : '/' ∉ node := not_slash_of_all hnode
  have hnone : node ++ '/' :: svc ≠ chars "none" := by
    intro h
    exact slash_not_in_none (h ▸ List.mem_append.2 (Or.inr (List.mem_cons_self _ _)))
  rw [normalize_dtn_unfold node svc hs hnone, nodeMatch_of_all hnode]
  rcases Decidable.em (svc = []) with hsv | hsv
  · subst hsv
    rfl
  · rw [if_neg hsv]
    simp only [hsvc, Bool.not_true, Bool.false_eq_true, if_false]
    simp [chars, List.append_assoc]

/-- Evaluation of `EID._normalize` on any `ipn:`-prefixed input. -/
lemma normalize_ipn_unfold (rest : List Char) :
    EID.normalize (chars "ipn:" ++ rest) =
      (if startsWith rest (chars "//") then
        Except.error (chars "invalid IPN EID: must be \x27ipn:N.S\x27, not \x27ipn://N.S\x27")
      else
        match splitAll rest '.' with
        | [a, b] =>
          match pyInt a, pyInt b with
          | some nodeI, some svcI =>
            if nodeI < 1 then Except.error (chars "IPN node must be >= 1")
            else if svcI < 0 then Except.error (chars "IPN service must be >= 0")
            else Except.ok (chars "ipn:" ++ intRepr nodeI ++ chars "." ++ intRepr svcI)
          | _, _ => Except.error (chars "invalid IPN numbers")
        | _ => Except.error (chars "invalid IPN EID: need exactly one dot (node.service)")) := by
  unfold EID.normalize
  rw [if_neg (ipn_prefix_ne_dtnNone rest)]
  rw [ipn_prefix_not_dtn rest, ipn_prefix_is_ipn rest]
  rfl

lemma digitChar_isDigit (d : Nat) : (digitChar d).isDigit = true := by
  rcases d with _ | _ | _ | _ | _ | _ | _ | _ | _ | d <;> rfl

lemma natReprAux_all_digit (fuel n : Nat) :
    (natReprAux fuel n).all Char.isDigit = true := by
  induction fuel generalizing n with
  | zero => rfl
  | succ f ih =>
    unfold natReprAux
    rcases Decidable.em (n < 10) with h | h
    · simp [h, digitChar_isDigit]
    · simp [h, List.all_append, ih, digitChar_isDigit]

lemma dot_not_in_natRepr (n : Nat) : '.' ∉ natRepr n := by
  intro h
  have := List.all_eq_true.1 (natReprAux_all_digit (n + 1) n) _ h
  exact absurd this (by decide)

lemma intRepr_nonneg (i : Int) (h : ¬ i < 0) : intRepr i = natRepr i.toNat := by
  simp [intRepr, h]

lemma normalize_ok_shape {s t : List Char} (h : EID.normalize s = .ok t) :
    t = dtnNone ∨
    (∃ node svc, t = chars "dtn://" ++ node ++ '/' :: svc ∧ '/' ∉ node) ∨
    (∃ a b : Nat, t = chars "ipn:" ++ natRepr a ++ '.' :: natRepr b) := by
  unfold EID.normalize at h
  split at h
  · rename_i hc
    injection h with h
    exact Or.inl (h ▸ hc)
  · split at h
    · dsimp only at h
      split at h
      · simp at h
      · split at h
        · simp at h
        · split at h
          · simp at h
          · split at h
            · injection h with h
              refine Or.inr (Or.inl ⟨(splitOnce (s.drop 6) '/').1, [],
                ?_, splitOnce_fst_not_mem _ _⟩)
              rw [← h]
              rfl
            · split at h
              · simp at h
              · injection h with h
                refine Or.inr (Or.inl ⟨(splitOnce (s.drop 6) '/').1,
                  (splitOnce (s.drop 6) '/').2.getD [],
                  ?_, splitOnce_fst_not_mem _ _⟩)
                rw [← h, List.append_assoc]
                rfl
    · split at h
      · dsimp only at h
        split at h
        · simp at h
        · split at h
          · split at h
            · split at h
              · simp at h
              · split at h
                · simp at h
                · rename_i nodeI svcI heqa heqb hn hs
                  injection h with h
                  refine Or.inr (Or.inr ⟨nodeI.toNat, svcI.toNat, ?_⟩)
                  rw [← h, intRepr_nonneg _ (by omega), intRepr_nonneg _ hs, List.append_assoc]
                  rfl
            · simp at h
          · simp at h
      · simp at h

lemma eidNode_dtn_shape (node svc : List Char) (hs : '/' ∉ node) :
    eidNode (chars "dtn://" ++ node ++ '/' :: svc) = some (some node) := by
  have hassoc : chars "dtn://" ++ node ++ '/' :: svc = chars "dtn://" ++ (node ++ '/' :: svc) := by
    simp [List.append_assoc]
  rw [hassoc]
  unfold eidNode
  rw [if_neg (dtn_prefix_ne_dtnNone _), dtn_prefix_is_dtn, if_pos rfl, drop6_dtn,
    splitOnce_fst_append hs]

lemma eidService_dtn_shape (node svc : List Char) (hs : '/' ∉ node) :
    eidService (chars "dtn://" ++ node ++ '/' :: svc) = some (some svc) := by
  have hassoc : chars "dtn://" ++ node ++ '/' :: svc = chars "dtn://" ++ (node ++ '/' :: svc) := by
    simp [List.append_assoc]
  rw [hassoc]
  unfold eidService
  rw [if_neg (dtn_prefix_ne_dtnNone _), dtn_prefix_is_dtn, if_pos rfl, drop6_dtn,
    splitOnce_snd_append hs]

lemma eidNode_ipn_shape (a b : Nat) :
    eidNode (chars "ipn:" ++ natRepr a ++ '.' :: natRepr b) = some (some (natRepr a)) := by
  have hassoc : chars "ipn:" ++ natRepr a ++ '.' :: natRepr b
      = chars "ipn:" ++ (natRepr a ++ '.' :: natRepr b) := by
    simp [List.append_assoc]
  rw [hassoc]
  unfold eidNode
  rw [if_neg (ipn_prefix_ne_dtnNone _), ipn_prefix_not_dtn]
  rw [if_neg (by simp), drop4_ipn, splitOnce_fst_append (dot_not_in_natRepr a)]

lemma eidService_ipn_shape (a b : Nat) :
    eidService (chars "ipn:" ++ natRepr a ++ '.' :: natRepr b) = some (some (natRepr b)) := by
  have hassoc : chars "ipn:" ++ natRepr a ++ '.' :: natRepr b
      = chars "ipn:" ++ (natRepr a ++ '.' :: natRepr b) := by
    simp [List.append_assoc]
  rw [hassoc]
  unfold eidService
  rw [if_neg (ipn_prefix_ne_dtnNone _), ipn_prefix_not_dtn]
  rw [if_neg (by simp), drop4_ipn, splitOnce_snd_append (dot_not_in_natRepr a)]

lemma accessors_total_of_normalize {s t : List Char} (h : EID.normalize s = .ok t) :
    (eidNode t).isSome ∧ (eidService t).isSome ∧
      (t = dtnNone → eidNode t = some none ∧ eidService t = some none) := by
  rcases normalize_ok_shape h with hn | ⟨node, svc, rfl, hs⟩ | ⟨a, b, rfl⟩
  · subst hn
    exact ⟨rfl, rfl, fun _ => ⟨rfl, rfl⟩⟩
  · refine ⟨?_, ?_, ?_⟩
    · rw [eidNode_dtn_shape node svc hs]; rfl
    · rw [eidService_dtn_shape node svc hs]; rfl
    · intro hd
      have : chars "dtn://" ++ (node ++ '/' :: svc) = dtnNone := by
        rw [← hd]; simp [List.append_assoc]
      exact absurd this (dtn_prefix_ne_dtnNone _)
  · refine ⟨?_, ?_, ?_⟩
    · rw [eidNode_ipn_shape a b]; rfl
    · rw [eidService_ipn_shape a b]; rfl
    · intro hd
      have : chars "ipn:" ++ (natRepr a ++ '.' :: natRepr b) = dtnNone := by
        rw [← hd]; simp [List.append_assoc]
      exact absurd this (ipn_prefix_ne_dtnNone _)

lemma eidDtn_ok_exists {node : List Char} {service : Option (List Char)} {t : List Char}
    (h : eidDtn node service = .ok t) : ∃ s, EID.normalize s = .ok t := by
  unfold eidDtn at h
  dsimp only at h
  split at h
  · simp at h
  · split at h
    · exact ⟨_, h⟩
    · split at h
      · simp at h
      · exact ⟨_, h⟩

lemma eidIpn_ok_exists {a b : Int} {t : List Char}
    (h : eidIpn a b = .ok t) : ∃ s, EID.normalize s = .ok t := by
  unfold eidIpn at h
  split at h
  · simp at h
  · split at h
    · simp at h
    · exact ⟨_, h⟩

/-- C10: every EID produced by the constructor (via parsing or the
`dtn`/`ipn` factories; `EID.none()` is the parse of `dtn:none`) supports the
`node()` and `service()` accessors without raising: the canonical text of a
non-none dtn EID always contains a `/` and of an ipn EID always a `.`, so
the indexed split parts exist; for the `dtn:none` literal both accessors
return the `None` sentinel. -/
theorem C10_accessors_never_raise :
    (∀ s t, EID.normalize s = Except.ok t →
      (eidNode t).isSome ∧ (eidService t).isSome ∧
        (t = dtnNone → eidNode t = some none ∧ eidService t = some none)) ∧
    (∀ node service t, eidDtn node service = Except.ok t →
      (eidNode t).isSome ∧ (eidService t).isSome) ∧
    (∀ a b t, eidIpn a b = Except.ok t →
      (eidNode t).isSome ∧ (eidService t).isSome) := by
  refine ⟨fun s t h => accessors_total_of_normalize h, ?_, ?_⟩
  · intro node service t h
    obtain ⟨s, hs⟩ := eidDtn_ok_exists h
    exact ⟨(accessors_total_of_normalize hs).1, (accessors_total_of_normalize hs).2.1⟩
  · intro a b t h
    obtain ⟨s, hs⟩ := eidIpn_ok_exists h
    exact ⟨(accessors_total_of_normalize hs).1, (accessors_total_of_normalize hs).2.1⟩

/-- Witness for C10 at concrete inputs. -/
theorem C10_witness :
    ((eidNode (chars "ipn:1.0")).isSome ∧ (eidService (chars "ipn:1.0")).isSome ∧
      (chars "ipn:1.0" = dtnNone →
        eidNode (chars "ipn:1.0") = some none ∧ eidService (chars "ipn:1.0") = some none)) ∧
    ((eidNode (chars "dtn://a/b")).isSome ∧ (eidService (chars "dtn://a/b")).isSome) :=
  ⟨C10_accessors_never_raise.1 (chars "ipn:1.0") (chars "ipn:1.0") (by rfl),
   C10_accessors_never_raise.2.1 (chars "a") (some (chars "b")) (chars "dtn://a/b") (by rfl)⟩

/-- C7: for every `dtn://node/service` text whose node consists of allowed
class characters (possibly empty) and whose service is ASCII, parsing
succeeds, and re-parsing the parsed EID's canonical text yields the same
EID: parse ∘ serialize is the identity on parsed dtn EIDs. -/
theorem C7_dtn_roundtrip (node svc : List Char)
    (hnode : node.all nodeCharOk = true) (hsvc : isAsciiStr svc = true) :
    ∃ t, EID.normalize (chars "dtn://" ++ node ++ '/' :: svc) = Except.ok t ∧
      EID.normalize t = Except.ok t :=
  ⟨_, normalize_dtn_canonical node svc hnode hsvc,
    normalize_dtn_canonical node svc hnode hsvc⟩

/-- Witness for C7 at `dtn://node/svc`. -/
theorem C7_witness :
    ∃ t, EID.normalize (chars "dtn://node/svc") = Except.ok t ∧
      EID.normalize t = Except.ok t :=
  C7_dtn_roundtrip (chars "node") (chars "svc") (by decide) (by decide)

/-- C2 counterexample: the parser accepts `dtn://none/svc` (node part
`none`), and the `dtn` factory accepts the node `none`; the claim that every
`dtn://` text with node `none` is rejected is false. -/
theorem C2_counterexample :
    EID.normalize (chars "dtn://none/svc") = Except.ok (chars "dtn://none/svc") ∧
    eidNode (chars "dtn://none/svc") = some (some (chars "none")) ∧
    eidDtn (chars "none") (some (chars "svc")) = Except.ok (chars "dtn://none/svc") ∧
    eidDtn (chars "none") none = Except.ok (chars "dtn://none/") := by
  refine ⟨rfl, rfl, rfl, rfl⟩

/-- C2 amended: only the exact text `dtn://none` (nothing after the node) is
rejected with `EIDError`; `dtn://none/` and `dtn://none/<ascii service>`
parse successfully with node part `none`, and `EID.dtn("none", service)`
succeeds likewise. -/
theorem C2_amended (svc : List Char) (hne : svc ≠ []) (hascii : isAsciiStr svc = true) :
    EID.normalize (chars "dtn://none")
      = Except.error (chars "invalid DTN host: use \x27dtn:none\x27, not \x27dtn://none\x27") ∧
    EID.normalize (chars "dtn://none/") = Except.ok (chars "dtn://none/") ∧
    EID.normalize (chars "dtn://none/" ++ svc) = Except.ok (chars "dtn://none/" ++ svc) ∧
    eidDtn (chars "none") (some svc) = Except.ok (chars "dtn://none/" ++ svc) := by
  have hcanon : EID.normalize (chars "dtn://" ++ chars "none" ++ '/' :: svc)
      = Except.ok (chars "dtn://" ++ chars "none" ++ '/' :: svc) :=
    normalize_dtn_canonical (chars "none") svc (by decide) hascii
  refine ⟨rfl, rfl, hcanon, ?_⟩
  have h1 : (if (some svc = some ([] : List Char)) then none else some svc) = some svc := by
    simp [hne]
  unfold eidDtn
  dsimp only
  rw [h1]
  rw [if_neg (by decide)]
  simp only [hascii, Bool.not_true, Bool.false_eq_true, if_false]
  exact hcanon

/-- Witness for C2's amended theorem at service `echo`. -/
theorem C2_amended_witness :
    EID.normalize (chars "dtn://none/echo") = Except.ok (chars "dtn://none/echo") ∧
    eidDtn (chars "none") (some (chars "echo")) = Except.ok (chars "dtn://none/echo") :=
  ⟨(C2_amended (chars "echo") (by decide) (by decide)).2.2.1,
   (C2_amended (chars "echo") (by decide) (by decide)).2.2.2⟩

/-- C8: the five pinned parser behaviours: `dtn://none` fails; `dtn:none`
parses and is the (unique) falsy EID; `ipn://1.0` fails; `ipn:1.0` parses
with node part `1` and service part `0`; `ipn:0.5` fails because 0 < 1. -/
theorem C8_concrete_cases :
    EID.normalize (chars "dtn://none")
      = Except.error (chars "invalid DTN host: use \x27dtn:none\x27, not \x27dtn://none\x27") ∧
    EID.normalize (chars "dtn:none") = Except.ok (chars "dtn:none") ∧
    eidBool (chars "dtn:none") = false ∧
    (∀ s t : List Char, EID.normalize s = Except.ok t → t ≠ dtnNone → eidBool t = true) ∧
    EID.normalize (chars "ipn://1.0")
      = Except.error (chars "invalid IPN EID: must be \x27ipn:N.S\x27, not \x27ipn://N.S\x27") ∧
    EID.normalize (chars "ipn:1.0") = Except.ok (chars "ipn:1.0") ∧
    eidNode (chars "ipn:1.0") = some (some (chars "1")) ∧
    eidService (chars "ipn:1.0") = some (some (chars "0")) ∧
    EID.normalize (chars "ipn:0.5") = Except.error (chars "IPN node must be >= 1") := by
  refine ⟨rfl, rfl, rfl, ?_, rfl, rfl, rfl, rfl, rfl⟩
  intro s t _ ht
  simp [eidBool, bne_iff_ne, ht]

/-- Witness for C8's quantified conjunct: `ipn:1.0` is truthy. -/
theorem C8_witness : eidBool (chars "ipn:1.0") = true :=
  C8_concrete_cases.2.2.2.1 (chars "ipn:1.0") (chars "ipn:1.0") rfl (by decide)

lemma normalize_ipn_two (rest a b : List Char) (hsplit : splitAll rest '.' = [a, b])
    (hss : startsWith rest (chars "//") = false) :
    EID.normalize (chars "ipn:" ++ rest) =
      (match pyInt a, pyInt b with
       | some nodeI, some svcI =>
         if nodeI < 1 then Except.error (chars "IPN node must be >= 1")
         else if svcI < 0 then Except.error (chars "IPN service must be >= 0")
         else Except.ok (chars "ipn:" ++ intRepr nodeI ++ chars "." ++ intRepr svcI)
       | _, _ => Except.error (chars "invalid IPN numbers")) := by
  rw [normalize_ipn_unfold rest, if_neg (by simp [hss]), hsplit]

/-- C4: for `ipn:` texts whose remainder splits on `.` into exactly two
parts, parsing fails whenever either part is not accepted by Python
`int(..., 10)`; and every accepted `ipn:` text has exactly two dot-separated
parts that parse as integers with node ≥ 1 and service ≥ 0. -/
theorem C4_ipn_integer_parsing :
    (∀ rest a b : List Char, splitAll rest '.' = [a, b] →
      (pyInt a = none ∨ pyInt b = none) →
      ∃ m, EID.normalize (chars "ipn:" ++ rest) = Except.error m) ∧
    (∀ rest t : List Char, EID.normalize (chars "ipn:" ++ rest) = Except.ok t →
      ∃ a b na nb, splitAll rest '.' = [a, b] ∧ pyInt a = some na ∧
        pyInt b = some nb ∧ 1 ≤ na ∧ 0 ≤ nb) := by
  constructor
  · intro rest a b hsplit hbad
    by_cases hss : startsWith rest (chars "//") = true
    · rw [normalize_ipn_unfold rest, if_pos hss]
      exact ⟨_, rfl⟩
    · have hss' : startsWith rest (chars "//") = false := by
        revert hss; cases startsWith rest (chars "//") <;> simp
      rw [normalize_ipn_two rest a b hsplit hss']
      rcases ha : pyInt a with _ | na <;> rcases hb : pyInt b with _ | nb
      · exact ⟨_, rfl⟩
      · exact ⟨_, rfl⟩
      · exact ⟨_, rfl⟩
      · rcases hbad with hx | hx
        · rw [ha] at hx; cases hx
        · rw [hb] at hx; cases hx
  · intro rest t h
    rw [normalize_ipn_unfold rest] at h
    split at h
    · simp at h
    · split at h
      · rename_i parts a b heq
        split at h
        · rename_i oa ob na nb hna hnb
          split at h
          · simp at h
          · split at h
            · simp at h
            · rename_i h1 h2
              exact ⟨a, b, na, nb, heq, hna, hnb, by omega, by omega⟩
        · simp at h
      · simp at h

/-- Witness for C4: `ipn:x.0` (non-integer node) is rejected; `ipn:1.2` is
accepted with integer parts 1 and 2. -/
theorem C4_witness :
    (∃ m, EID.normalize (chars "ipn:x.0") = Except.error m) ∧
    (∃ a b na nb, splitAll (chars "1.2") '.' = [a, b] ∧ pyInt a = some na ∧
      pyInt b = some nb ∧ 1 ≤ na ∧ 0 ≤ nb) :=
  ⟨C4_ipn_integer_parsing.1 (chars "x.0") (chars "x") (chars "0") (by decide)
      (Or.inl (by decide)),
   C4_ipn_integer_parsing.2 (chars "1.2") (chars "ipn:1.2") (by decide)⟩

lemma exceptBind_ok {α β γ : Type} (a : α) (f : α → Except γ β) :
    Except.bind (Except.ok a) f = f a := rfl


lemma fromDictBC_roundtrip (bc : BundleContent) (h : wellFormedBC bc) :
    BundleContent.fromDict bc.dictify = Except.ok bc := by
  obtain ⟨bid, src, dst, pl⟩ := bc
  obtain ⟨hbid, hsrc, hsrcne, hdst, hdstne⟩ := h
  have hsb : eidBool src = true := by
    simp only [eidBool, bne_iff_ne, ne_eq]; exact hsrcne
  have hdb : eidBool dst = true := by
    simp only [eidBool, bne_iff_ne, ne_eq]; exact hdstne
  have hdic : BundleContent.dictify (BundleContent.mk bid src dst pl) =
      ((if bid ≠ [] then [(chars "BundleID", PyVal.str bid)] else []) ++
       (if eidBool src then [(chars "SourceID", PyVal.str src)] else []) ++
       (if eidBool dst then [(chars "DestinationID", PyVal.str dst)] else []) ++
       (if pl ≠ [] then [(chars "Payload", PyVal.bytes pl)] else [])) := rfl
  rcases pl with _ | ⟨p, ps⟩
  · have hd2 : BundleContent.dictify (BundleContent.mk bid src dst []) =
        [(chars "BundleID", PyVal.str bid), (chars "SourceID", PyVal.str src),
         (chars "DestinationID", PyVal.str dst)] := by
      rw [hdic, if_pos hbid, hsb, hdb]
      rfl
    rw [hd2]
    have key : ∀ (b s d : List Char),
        BundleContent.fromDict
          [(chars "BundleID", PyVal.str b), (chars "SourceID", PyVal.str s),
           (chars "DestinationID", PyVal.str d)] =
        Except.bind (liftEID (EID.normalize s)) (fun s2 =>
          Except.bind (liftEID (EID.normalize d)) (fun d2 =>
            Except.ok (BundleContent.mk b s2 d2 []))) := fun _ _ _ => rfl
    rw [key, hsrc, hdst]
    rfl
  · have hd2 : BundleContent.dictify (BundleContent.mk bid src dst (p :: ps)) =
        [(chars "BundleID", PyVal.str bid), (chars "SourceID", PyVal.str src),
         (chars "DestinationID", PyVal.str dst), (chars "Payload", PyVal.bytes (p :: ps))] := by
      rw [hdic, if_pos hbid, hsb, hdb]
      rfl
    rw [hd2]
    have key : ∀ (b s d : List Char) (q : Nat) (qs : List Nat),
        BundleContent.fromDict
          [(chars "BundleID", PyVal.str b), (chars "SourceID", PyVal.str s),
           (chars "DestinationID", PyVal.str d), (chars "Payload", PyVal.bytes (q :: qs))] =
        Except.bind (liftEID (EID.normalize s)) (fun s2 =>
          Except.bind (liftEID (EID.normalize d)) (fun d2 =>
            Except.ok (BundleContent.mk b s2 d2 (q :: qs)))) := fun _ _ _ _ _ => rfl
    rw [key, hsrc, hdst]
    rfl


lemma mapM_asStr_map (bs : List (List Char)) :
    List.mapM asStr (bs.map PyVal.str) = Except.ok bs := by
  induction bs with
  | nil => rfl
  | cons b rest ih =>
    rw [List.map_cons, List.mapM_cons]
    simp only [asStr, ih]
    rfl


lemma mapM_fromDictBC (bcs : List BundleContent) (h : ∀ bc ∈ bcs, wellFormedBC bc) :
    List.mapM (fun v => Except.bind (asDict v) BundleContent.fromDict)
      (bcs.map (fun bc => PyVal.dict bc.dictify)) = Except.ok bcs := by
  induction bcs with
  | nil => rfl
  | cons bc rest ih =>
    rw [List.map_cons, List.mapM_cons]
    have hhead : Except.bind (asDict (PyVal.dict bc.dictify)) BundleContent.fromDict
        = Except.ok bc := by
      have : asDict (PyVal.dict bc.dictify) = Except.ok bc.dictify := rfl
      rw [this, exceptBind_ok, fromDictBC_roundtrip bc (h bc (List.mem_cons_self _ _))]
    have hrest := ih (fun b hb => h b (List.mem_cons_of_mem _ hb))
    simp only [hhead, hrest]
    rfl


/-- C3 (amended): `deserialize ∘ serialize` is the identity on every
constructible message whose `BundleContent` parts (if any) have a non-empty
`BundleID` and non-none source/destination EIDs; payloads may be empty or
arbitrary bytes.  (The unamended claim fails: see the counterexample — a
none `SourceID` or empty `BundleID` is omitted by `BundleContent.dictify`
and `from_dict` then raises.) -/
theorem C3_roundtrip (m : Msg) (h : wellFormed m) :
    deserialize (serialize m) = Except.ok m := by
  cases m with
  | response t e =>
    obtain rfl : t = 1 := h
    rfl
  | registerUnregister t eid =>
    obtain ⟨ht, h2, _⟩ : (t = 2 ∨ t = 3) ∧ eid ≠ [] ∧ eid ≠ dtnNone := h
    rcases eid with _ | ⟨c, cs⟩
    · exact absurd rfl h2
    · rcases ht with rfl | rfl <;> rfl
  | bundleCreate t args =>
    obtain ⟨rfl, h2⟩ : t = 4 ∧ args ≠ [] := h
    rcases args with _ | ⟨kv, rest⟩
    · exact absurd rfl h2
    · rfl
  | bundleCreateResponse t e bid =>
    obtain ⟨rfl, h2⟩ : t = 5 ∧ bid ≠ [] := h
    rcases bid with _ | ⟨c, cs⟩
    · exact absurd rfl h2
    · rfl
  | listBundles t mb n =>
    obtain ⟨rfl, hmb, hne⟩ : t = 6 ∧ EID.normalize mb = .ok mb ∧ mb ≠ dtnNone := h
    have hbool : eidBool mb = true := by
      simp only [eidBool, bne_iff_ne, ne_eq]; exact hne
    have key : deserialize (serialize (Msg.listBundles 6 mb n)) =
        Except.bind (liftEID (EID.normalize mb)) (fun mb2 =>
          Except.bind
            (if (!eidBool mb2) = true then
              Except.error (PyErr.invalidMessage (chars "Mailbox must not be none/empty"))
            else Except.ok ())
            (fun _ => Except.ok (Msg.listBundles 6 mb2 n))) := rfl
    rw [key, hmb]
    simp only [liftEID, exceptBind_ok, hbool, Bool.not_true, Bool.false_eq_true, if_false]
  | listResponse t e bs =>
    obtain rfl : t = 7 := h
    have key : deserialize (serialize (Msg.listResponse 7 e bs)) =
        Except.bind (List.mapM asStr (bs.map PyVal.str)) (fun bs2 =>
          Except.ok (Msg.listResponse 7 e bs2)) := rfl
    rw [key, mapM_asStr_map]
    rfl
  | fetchBundle t mb bid r =>
    obtain ⟨rfl, hmb, hne, h2⟩ :
        t = 8 ∧ EID.normalize mb = .ok mb ∧ mb ≠ dtnNone ∧ bid ≠ [] := h
    have hbool : eidBool mb = true := by
      simp only [eidBool, bne_iff_ne, ne_eq]; exact hne
    rcases bid with _ | ⟨c, cs⟩
    · exact absurd rfl h2
    · have key : deserialize (serialize (Msg.fetchBundle 8 mb (c :: cs) r)) =
          Except.bind (liftEID (EID.normalize mb)) (fun mb2 =>
            Except.bind
              (if (!eidBool mb2) = true then
                Except.error (PyErr.invalidMessage (chars "Mailbox must not be none/empty"))
              else Except.ok ())
              (fun _ => Except.ok (Msg.fetchBundle 8 mb2 (c :: cs) r))) := rfl
      rw [key, hmb]
      simp only [liftEID, exceptBind_ok, hbool, Bool.not_true, Bool.false_eq_true, if_false]
  | fetchBundleResponse t e bc =>
    obtain ⟨rfl, hbc⟩ : t = 9 ∧ wellFormedBC bc := h
    have key : deserialize (serialize (Msg.fetchBundleResponse 9 e bc)) =
        Except.bind (BundleContent.fromDict bc.dictify) (fun bc2 =>
          Except.ok (Msg.fetchBundleResponse 9 e bc2)) := rfl
    rw [key, fromDictBC_roundtrip bc hbc]
    rfl
  | fetchAllBundles t mb n r =>
    obtain ⟨rfl, hmb, hne⟩ : t = 10 ∧ EID.normalize mb = .ok mb ∧ mb ≠ dtnNone := h
    have hbool : eidBool mb = true := by
      simp only [eidBool, bne_iff_ne, ne_eq]; exact hne
    have key : deserialize (serialize (Msg.fetchAllBundles 10 mb n r)) =
        Except.bind (liftEID (EID.normalize mb)) (fun mb2 =>
          Except.bind
            (if (!eidBool mb2) = true then
              Except.error (PyErr.invalidMessage (chars "Mailbox must not be none/empty"))
            else Except.ok ())
            (fun _ => Except.ok (Msg.fetchAllBundles 10 mb2 n r))) := rfl
    rw [key, hmb]
    simp only [liftEID, exceptBind_ok, hbool, Bool.not_true, Bool.false_eq_true, if_false]
  | fetchAllBundlesResponse t e bcs =>
    obtain ⟨rfl, hbcs⟩ : t = 11 ∧ ∀ bc ∈ bcs, wellFormedBC bc := h
    have key : deserialize (serialize (Msg.fetchAllBundlesResponse 11 e bcs)) =
        Except.bind
          (List.mapM (fun v => Except.bind (asDict v) BundleContent.fromDict)
            (bcs.map (fun bc => PyVal.dict bc.dictify)))
          (fun bcs2 => Except.ok (Msg.fetchAllBundlesResponse 11 e bcs2)) := rfl
    rw [key, mapM_fromDictBC bcs hbcs]
    rfl


/-- C3 counterexample: the claim includes a `BundleContent` whose `SourceID`
is the none EID or whose `BundleID` is empty; `dictify` omits those falsy
fields and `from_dict` supplies no default, so the round-trip raises
(`KeyError` / `TypeError`) instead of succeeding. -/
theorem C3_counterexample :
    deserialize (serialize (Msg.fetchBundleResponse 9 []
        (BundleContent.mk (chars "b1") dtnNone (chars "dtn://d/y") [])))
      = Except.error (.keyError (chars "SourceID")) ∧
    deserialize (serialize (Msg.fetchBundleResponse 9 []
        (BundleContent.mk [] (chars "dtn://s/x") (chars "dtn://d/y") [])))
      = Except.error (.typeError (chars "missing required argument \x27BundleID\x27")) :=
  ⟨rfl, rfl⟩


/-- Witness for C3's amended round-trip: a `FetchBundleResponse` carrying a
binary payload round-trips; so does one with an empty payload. -/
theorem C3_witness :
    deserialize (serialize (Msg.fetchBundleResponse 9 []
        (BundleContent.mk (chars "b1") (chars "dtn://s/x") (chars "ipn:1.0") [0, 255, 7])))
      = Except.ok (Msg.fetchBundleResponse 9 []
        (BundleContent.mk (chars "b1") (chars "dtn://s/x") (chars "ipn:1.0") [0, 255, 7])) ∧
    deserialize (serialize (Msg.fetchBundleResponse 9 []
        (BundleContent.mk (chars "b1") (chars "dtn://s/x") (chars "ipn:1.0") [])))
      = Except.ok (Msg.fetchBundleResponse 9 []
        (BundleContent.mk (chars "b1") (chars "dtn://s/x") (chars "ipn:1.0") [])) :=
  ⟨C3_roundtrip _ ⟨rfl, by decide, rfl, by decide, rfl, by decide⟩,
   C3_roundtrip _ ⟨rfl, by decide, rfl, by decide, rfl, by decide⟩⟩


/-- C1: `RegisterUnregister.from_dict` does not convert the raw `EndpointID`
string back into an `EID`, so decoding a RegisterEID mapping whose
`EndpointID` text is the (none) literal `dtn:none` — or any other invalid
EID text — produces a message object instead of failing.  Had the field been
converted (as the spec requires, and as `__post_init__` does for EID-typed
fields), construction would raise; the sibling `ListBundles.from_dict`
conversion path does reject the same text. -/
theorem C1_decode_skips_eid_validation :
    deserialize [(chars "Type", PyVal.int 2),
        (chars "EndpointID", PyVal.str dtnNone)]
      = Except.ok (Msg.registerUnregister 2 dtnNone) ∧
    postInit (Msg.registerUnregister 2 dtnNone)
      = Except.error (.invalidMessage (chars "EndpointID must not be none/empty")) ∧
    deserialize [(chars "Type", PyVal.int 6), (chars "Mailbox", PyVal.str dtnNone),
        (chars "New", PyVal.bool false)]
      = Except.error (.invalidMessage (chars "Mailbox must not be none/empty")) :=
  ⟨rfl, rfl, rfl⟩


/-- C9: for each of the ten message variants, `__post_init__` rejects any
tag other than the variant's required discriminant with
`InvalidMessageError` (for `RegisterUnregister`: other than RegisterEID = 2
or UnregisterEID = 3), regardless of the other field values. -/
theorem C9_tag_mismatch :
    (∀ (t : Int) (e : List Char), t ≠ 1 →
      postInit (.response t e)
        = Except.error (.invalidMessage (needTypeMsg (chars "1") t))) ∧
    (∀ (t : Int) (eid : List Char), t ≠ 2 → t ≠ 3 →
      postInit (.registerUnregister t eid)
        = Except.error (.invalidMessage (needTypeMsg (chars "2 or 3") t))) ∧
    (∀ (t : Int) (args : PyDict), t ≠ 4 →
      postInit (.bundleCreate t args)
        = Except.error (.invalidMessage (needTypeMsg (chars "4") t))) ∧
    (∀ (t : Int) (e bid : List Char), t ≠ 5 →
      postInit (.bundleCreateResponse t e bid)
        = Except.error (.invalidMessage (needTypeMsg (chars "5") t))) ∧
    (∀ (t : Int) (mb : List Char) (n : Bool), t ≠ 6 →
      postInit (.listBundles t mb n)
        = Except.error (.invalidMessage (needTypeMsg (chars "6") t))) ∧
    (∀ (t : Int) (e : List Char) (bs : List (List Char)), t ≠ 7 →
      postInit (.listResponse t e bs)
        = Except.error (.invalidMessage (needTypeMsg (chars "7") t))) ∧
    (∀ (t : Int) (mb bid : List Char) (r : Bool), t ≠ 8 →
      postInit (.fetchBundle t mb bid r)
        = Except.error (.invalidMessage (needTypeMsg (chars "8") t))) ∧
    (∀ (t : Int) (e : List Char) (bc : BundleContent), t ≠ 9 →
      postInit (.fetchBundleResponse t e bc)
        = Except.error (.invalidMessage (needTypeMsg (chars "9") t))) ∧
    (∀ (t : Int) (mb : List Char) (n r : Bool), t ≠ 10 →
      postInit (.fetchAllBundles t mb n r)
        = Except.error (.invalidMessage (needTypeMsg (chars "10") t))) ∧
    (∀ (t : Int) (e : List Char) (bcs : List BundleContent), t ≠ 11 →
      postInit (.fetchAllBundlesResponse t e bcs)
        = Except.error (.invalidMessage (needTypeMsg (chars "11") t))) := by
  refine ⟨?_, ?_, ?_, ?_, ?_, ?_, ?_, ?_, ?_, ?_⟩
  · intro t e h; unfold postInit; dsimp only; rw [if_pos h]
  · intro t eid h2 h3; unfold postInit; dsimp only; rw [if_pos ⟨h2, h3⟩]
  · intro t args h; unfold postInit; dsimp only; rw [if_pos h]
  · intro t e bid h; unfold postInit; dsimp only; rw [if_pos h]
  · intro t mb n h; unfold postInit; dsimp only; rw [if_pos h]
  · intro t e bs h; unfold postInit; dsimp only; rw [if_pos h]
  · intro t mb bid r h; unfold postInit; dsimp only; rw [if_pos h]
  · intro t e bc h; unfold postInit; dsimp only; rw [if_pos h]
  · intro t mb n r h; unfold postInit; dsimp only; rw [if_pos h]
  · intro t e bcs h; unfold postInit; dsimp only; rw [if_pos h]


/-- Witness for C9: construction with tag 99 fails for every variant. -/
theorem C9_witness :
    postInit (.response 99 []) = Except.error (.invalidMessage (needTypeMsg (chars "1") 99)) ∧
    postInit (.registerUnregister 99 (chars "dtn://a/b"))
      = Except.error (.invalidMessage (needTypeMsg (chars "2 or 3") 99)) ∧
    postInit (.bundleCreate 99 [(chars "k", PyVal.int 0)])
      = Except.error (.invalidMessage (needTypeMsg (chars "4") 99)) ∧
    postInit (.bundleCreateResponse 99 [] (chars "b"))
      = Except.error (.invalidMessage (needTypeMsg (chars "5") 99)) ∧
    postInit (.listBundles 99 (chars "dtn://a/b") true)
      = Except.error (.invalidMessage (needTypeMsg (chars "6") 99)) ∧
    postInit (.listResponse 99 [] [])
      = Except.error (.invalidMessage (needTypeMsg (chars "7") 99)) ∧
    postInit (.fetchBundle 99 (chars "dtn://a/b") (chars "b") false)
      = Except.error (.invalidMessage (needTypeMsg (chars "8") 99)) ∧
    postInit (.fetchBundleResponse 99 []
        (BundleContent.mk (chars "b") (chars "ipn:1.0") (chars "ipn:1.0") []))
      = Except.error (.invalidMessage (needTypeMsg (chars "9") 99)) ∧
    postInit (.fetchAllBundles 99 (chars "dtn://a/b") true false)
      = Except.error (.invalidMessage (needTypeMsg (chars "10") 99)) ∧
    postInit (.fetchAllBundlesResponse 99 [] [])
      = Except.error (.invalidMessage (needTypeMsg (chars "11") 99)) :=
  ⟨C9_tag_mismatch.1 99 [] (by decide),
   C9_tag_mismatch.2.1 99 (chars "dtn://a/b") (by decide) (by decide),
   C9_tag_mismatch.2.2.1 99 [(chars "k", PyVal.int 0)] (by decide),
   C9_tag_mismatch.2.2.2.1 99 [] (chars "b") (by decide),
   C9_tag_mismatch.2.2.2.2.1 99 (chars "dtn://a/b") true (by decide),
   C9_tag_mismatch.2.2.2.2.2.1 99 [] [] (by decide),
   C9_tag_mismatch.2.2.2.2.2.2.1 99 (chars "dtn://a/b") (chars "b") false (by decide),
   C9_tag_mismatch.2.2.2.2.2.2.2.1 99 []
     (BundleContent.mk (chars "b") (chars "ipn:1.0") (chars "ipn:1.0") []) (by decide),
   C9_tag_mismatch.2.2.2.2.2.2.2.2.1 99 (chars "dtn://a/b") true false (by decide),
   C9_tag_mismatch.2.2.2.2.2.2.2.2.2 99 [] [] (by decide)⟩


/-- C5 (amended): for every transport call, a decoded reply outside the
Response family raises `DataError`; a Response-family reply with non-empty
`Error` raises `DTNDError` carrying exactly that text (checked before any
variant test); with an empty `Error`, the four payload-returning calls raise
`DataError` when the concrete variant is not the one they expect and return
the typed payload when it is — but `register_unregister` performs no
concrete-variant check and accepts any Response-family reply. -/
theorem C5_call_dispatch :
    (∀ r, isResponseFamily r = false →
      registerUnregisterCall r
          = Except.error (.dataError (chars "Received response is not a response message")) ∧
      createBundleCall r
          = Except.error (.dataError (chars "Received response is not a response message")) ∧
      listBundlesCall r
          = Except.error (.dataError (chars "Received response is not a response message")) ∧
      fetchBundleCall r
          = Except.error (.dataError (chars "Received response is not a response message")) ∧
      fetchAllBundlesCall r
          = Except.error (.dataError (chars "Received response is not a response message"))) ∧
    (∀ r e, errField r = some e → e ≠ [] →
      registerUnregisterCall r = Except.error (.dtndError e) ∧
      createBundleCall r = Except.error (.dtndError e) ∧
      listBundlesCall r = Except.error (.dtndError e) ∧
      fetchBundleCall r = Except.error (.dtndError e) ∧
      fetchAllBundlesCall r = Except.error (.dtndError e)) ∧
    (∀ r, isResponseFamily r = true → errField r = some [] →
      registerUnregisterCall r = Except.ok () ∧
      (isBundleCreateResponse r = false → createBundleCall r
        = Except.error (.dataError (chars "response should have been BundleCreateResponse"))) ∧
      (isListResponse r = false → listBundlesCall r
        = Except.error (.dataError (chars "response should have been ListResponse"))) ∧
      (isFetchBundleResponse r = false → fetchBundleCall r
        = Except.error (.dataError (chars "response should have been FetchBundleResponse"))) ∧
      (isFetchAllBundlesResponse r = false → fetchAllBundlesCall r
        = Except.error (.dataError (chars "response should have been FetchAllBundlesResponse")))) ∧
    (∀ (t : Int) (bid : List Char),
      createBundleCall (.bundleCreateResponse t [] bid) = Except.ok bid) ∧
    (∀ (t : Int) (bs : List (List Char)),
      listBundlesCall (.listResponse t [] bs) = Except.ok bs) ∧
    (∀ (t : Int) (bc : BundleContent),
      fetchBundleCall (.fetchBundleResponse t [] bc) = Except.ok bc) ∧
    (∀ (t : Int) (bcs : List BundleContent),
      fetchAllBundlesCall (.fetchAllBundlesResponse t [] bcs) = Except.ok bcs) := by
  refine ⟨?_, ?_, ?_, fun t bid => rfl, fun t bs => rfl, fun t bc => rfl, fun t bcs => rfl⟩
  · intro r hfam
    cases r <;> first
      | exact ⟨rfl, rfl, rfl, rfl, rfl⟩
      | simp [isResponseFamily] at hfam
  · intro r e herr hne
    cases r <;> simp only [errField, Option.some.injEq, reduceCtorEq] at herr
    all_goals subst herr
    all_goals obtain ⟨c, cs, rfl⟩ := List.exists_cons_of_ne_nil hne
    all_goals exact ⟨rfl, rfl, rfl, rfl, rfl⟩
  · intro r hfam herr
    cases r <;> simp only [errField, Option.some.injEq, reduceCtorEq] at herr
    all_goals subst herr
    · exact ⟨rfl, fun _ => rfl, fun _ => rfl, fun _ => rfl, fun _ => rfl⟩
    · exact ⟨rfl, fun hf => by simp [isBundleCreateResponse] at hf,
        fun _ => rfl, fun _ => rfl, fun _ => rfl⟩
    · exact ⟨rfl, fun _ => rfl, fun hf => by simp [isListResponse] at hf,
        fun _ => rfl, fun _ => rfl⟩
    · exact ⟨rfl, fun _ => rfl, fun _ => rfl,
        fun hf => by simp [isFetchBundleResponse] at hf, fun _ => rfl⟩
    · exact ⟨rfl, fun _ => rfl, fun _ => rfl, fun _ => rfl,
        fun hf => by simp [isFetchAllBundlesResponse] at hf⟩


/-- C5 counterexample: a decoded `ListResponse` with empty error makes
`register_unregister` succeed even though the concrete variant is not the
plain `Response` the operation expects — no `DataError` is raised. -/
theorem C5_counterexample :
    registerUnregisterCall (Msg.listResponse 7 [] []) = Except.ok () ∧
    isListResponse (Msg.listResponse 7 [] []) = true :=
  ⟨rfl, rfl⟩


/-- Witness for C5 at concrete replies. -/
theorem C5_witness :
    createBundleCall (Msg.bundleCreate 4 [])
      = Except.error (.dataError (chars "Received response is not a response message")) ∧
    registerUnregisterCall (Msg.response 1 (chars "boom"))
      = Except.error (.dtndError (chars "boom")) ∧
    createBundleCall (Msg.response 1 [])
      = Except.error (.dataError (chars "response should have been BundleCreateResponse")) ∧
    createBundleCall (Msg.bundleCreateResponse 5 [] (chars "bid1")) = Except.ok (chars "bid1") :=
  ⟨(C5_call_dispatch.1 (Msg.bundleCreate 4 []) rfl).2.1,
   (C5_call_dispatch.2.1 (Msg.response 1 (chars "boom")) (chars "boom") rfl (by decide)).1,
   (C5_call_dispatch.2.2.1 (Msg.response 1 []) rfl rfl).2.1 rfl,
   C5_call_dispatch.2.2.2.1 5 (chars "bid1")⟩


/-- C6: a reply whose 8-byte big-endian length prefix decodes to a length
≤ 0 raises `DataError` with the nonsensical-data-length message, and a reply
stream delivering fewer bytes than announced raises `DataError` whose
message names both the announced and the actual byte counts; a short read is
never accepted. -/
theorem C6_framing_checks :
    (∀ stream : List Nat, fromBytesBE (stream.take 8) = 0 →
      recvReply stream
        = Except.error (.dataError (chars "Received nonsensical data-length: 0"))) ∧
    (∀ stream : List Nat, 0 < fromBytesBE (stream.take 8) →
      (stream.drop 8).length < fromBytesBE (stream.take 8) →
      recvReply stream = Except.error (.dataError
        (chars "Announced data length and actual length do not match - announced: "
          ++ natRepr (fromBytesBE (stream.take 8)) ++ chars ", actual: "
          ++ natRepr (stream.drop 8).length))) := by
  constructor
  · intro stream h
    simp only [recvReply, h]
    rfl
  · intro stream h1 h2
    simp only [recvReply]
    rw [if_neg (by omega)]
    have hlen : ((stream.drop 8).take (fromBytesBE (stream.take 8))).length
        = (stream.drop 8).length := by
      rw [List.length_take]
      omega
    rw [hlen]
    rw [if_pos (by omega)]


/-- Witness for C6: a zero length prefix, and a prefix announcing 100 bytes
over a stream that only delivers 40. -/
theorem C6_witness :
    recvReply (List.replicate 8 0)
      = Except.error (.dataError (chars "Received nonsensical data-length: 0")) ∧
    recvReply ([0, 0, 0, 0, 0, 0, 0, 100] ++ List.replicate 40 7)
      = Except.error (.dataError
        (chars "Announced data length and actual length do not match - announced: 100, actual: 40")) :=
  ⟨C6_framing_checks.1 (List.replicate 8 0) (by decide),
   C6_framing_checks.2 ([0, 0, 0, 0, 0, 0, 0, 100] ++ List.replicate 40 7)
     (by decide) (by decide)⟩

